import Mathlib

/-!
Shallow embedding of `vite-plugin-ssam-ffmpeg` (src/src/index.ts, the final
converged version at the top of the file).  The plugin keeps module-level
mutable state (`isFfmpegInstalled`, `isFfmpegReady`, `filename`, `format`,
`width`, `height`, `framesRecorded`, `totalFrames`, `cropped`, `msgCropped`)
plus the closure variables `subDir` and the ffmpeg `stdin` handle, and reacts
to three websocket events: "ssam:ffmpeg" (start), "ssam:ffmpeg-newframe"
(frame) and "ssam:ffmpeg-done" (finish).  We model that state explicitly,
model the filesystem as the list of existing directories, model spawned
ffmpeg subprocesses as the list of their argument vectors, and model each
event handler as a function from state to state plus the list of
notifications sent to the client via `client.send`.  Log messages are
modelled by their payload text; the `prefix()` timestamp tag and kleur ANSI
colours (stripped by `removeAnsiEscapeCodes` before sending anyway) are
presentation and are not modelled.  Console output (console.log/warn/error)
is not an observable notification and is not modelled.
-/

namespace SsamFfmpeg

/-- Plugin options after merging `defaultOptions` with the user's
`ExportOptions` (index.ts lines 46-52, 79-82). -/
structure Config where
  log : Bool
  outDir : String
  padLength : Nat
  debug : Bool
deriving DecidableEq, Repr

/-- The `defaultOptions` record (index.ts lines 46-52). -/
def defaultConfig : Config :=
  { log := true, outDir := "./output", padLength := 5, debug := false }

/-- Payload of the "ssam:ffmpeg" start event:
`{ filename, format, totalFrames, width, height, fps }`.  `width`/`height`
are JS numbers, embedded as rationals so that `Math.floor` is meaningful. -/
structure StartData where
  filename : String
  format : String
  totalFrames : Nat
  width : ℚ
  height : ℚ
  fps : Nat
deriving DecidableEq, Repr

/-- A spawned ffmpeg subprocess, identified by the argument vector passed to
`spawn("ffmpeg", args)`. -/
structure SpawnInfo where
  args : List String
deriving DecidableEq, Repr

/-- The module-level mutable state of the plugin (index.ts lines 62-73), the
closure variables `subDir` and `stdin` (lines 83, 101), plus a model of the
filesystem (`fsDirs`: directories that exist) and of the spawned
subprocesses (`spawned`; `stdinHandle` is the index of the subprocess whose
stdin pipe the closure variable currently references). -/
structure PluginState where
  isFfmpegInstalled : Bool
  isFfmpegReady : Bool
  filename : String
  format : String
  width : ℤ
  height : ℤ
  framesRecorded : ℕ
  totalFrames : ℕ
  cropped : Bool
  msgCropped : String
  subDir : String
  stdinOpen : Bool
  stdinHandle : Option ℕ
  spawned : List SpawnInfo
  fsDirs : List String
deriving DecidableEq, Repr

/-- Messages sent to the client: "ssam:warn" `{msg}`, "ssam:log" `{msg}` and
"ssam:ffmpeg-reqframe" (no payload). -/
inductive Notification where
  | warn (msg : String)
  | log (msg : String)
  | reqframe
deriving DecidableEq, Repr

/-- Inbound events.  `newframe`'s image payload is an opaque data-URL string
whose bytes go to the pipe verbatim; the only observable aspect of a frame
event is whether the `stdin.write` callback reports an error, modelled by
`writeOk`. -/
inductive Event where
  | start (d : StartData)
  | newframe (writeOk : Bool)
  | done
deriving DecidableEq, Repr

/-- Model of `path.join(a, b)` for the simple two-segment joins used in index.ts. -/
def pathJoin (a b : String) : String := a ++ "/" ++ b

/-- Lines 122-123: `w % 2 === 0 ? w : w - 1` — crop a dimension to be a
multiple of 2 (JS `%` and Lean `%` agree on divisibility-by-2 tests). -/
def evenCrop (n : ℤ) : ℤ := if n % 2 = 0 then n else n - 1

/-- Line 128: the crop-warning text (after ANSI colour stripping). -/
def cropMsg (w h : ℤ) : String :=
  s!"output dimensions cropped to be multiples of 2: [{w}, {h}]"

/-- Lines 256-258: the per-frame progress log text (`totalFrames` is falsy
in JS exactly when it is 0). -/
def frameMsg (fmt : String) (framesRecorded totalFrames : ℕ) : String :=
  s!"recording ({fmt}) frame... {framesRecorded} of " ++
    (if totalFrames ≠ 0 then toString totalFrames else "Infinity")

/-- Lines 144-147 / 186-189: the ffmpeg input-side arguments. -/
def inputArgsOf (fps : Nat) (newWidth newHeight : ℤ) : List String :=
  (s!"-f image2pipe -framerate {fps} -c:v png -i - -filter crop={newWidth}:{newHeight}:0:0").splitOn " "

/-- Lines 149-153: the ffmpeg output-side arguments for mp4. -/
def outputArgsMp4 (fps : Nat) : List String :=
  ["-c:v", "libx264", "-pix_fmt", "yuv420p",
   "-preset", "slow", "-crf", "18", "-r", toString fps,
   "-movflags", "+faststart"]

/-- Lines 114-133: assign the session fields from the start payload
(`({ filename, format, totalFrames, width, height } = data)`), reset
`framesRecorded` to 0, floor the dimensions, and set the crop status (the
`else` branch clears `cropped` but leaves `msgCropped` as it was). -/
def startAssign (s : PluginState) (d : StartData) : PluginState :=
  let width : ℤ := ⌊d.width⌋
  let height : ℤ := ⌊d.height⌋
  let s1 : PluginState :=
    { s with filename := d.filename, format := d.format,
             totalFrames := d.totalFrames, width := width, height := height,
             framesRecorded := 0 }
  if ¬width % 2 = 0 ∨ ¬height % 2 = 0 then
    { s1 with cropped := true,
              msgCropped := cropMsg (evenCrop width) (evenCrop height) }
  else
    { s1 with cropped := false }

/-- Lines 136-141 and 194-201: `if (!fs.existsSync(dir)) fs.mkdirSync(dir)`. -/
def ensureDir (dir : String) (s : PluginState) : PluginState :=
  if dir ∈ s.fsDirs then s else { s with fsDirs := dir :: s.fsDirs }

/-- Lines 156-164 and 204-210: `spawn("ffmpeg", args)` and capture of the
subprocess's stdin pipe into the closure variable. -/
def spawnFfmpeg (args : List String) (s : PluginState) : PluginState :=
  { s with spawned := s.spawned ++ [⟨args⟩],
           stdinHandle := some s.spawned.length, stdinOpen := true }

/-- Handler for "ssam:ffmpeg" (index.ts lines 106-227). -/
def stepStart (cfg : Config) (s : PluginState) (d : StartData) :
    PluginState × List Notification :=
  -- lines 107-112: if ffmpeg was not found, warn and return
  if s.isFfmpegInstalled = false then
    (s, if cfg.log then [.warn "ffmpeg was not found"] else [])
  else
    let newWidth := evenCrop ⌊d.width⌋
    let newHeight := evenCrop ⌊d.height⌋
    let s2 := ensureDir cfg.outDir (startAssign s d)
    let fmt := d.format
    if d.format = "mp4" then
      -- lines 143-183
      let outputArgs := outputArgsMp4 d.fps
      let outputArgs := if cfg.debug then outputArgs ++ ["-report"] else outputArgs
      let args := ["-y"] ++ inputArgsOf d.fps newWidth newHeight ++ outputArgs
                    ++ [pathJoin cfg.outDir (d.filename ++ "." ++ d.format)]
      let s3 := { spawnFfmpeg args s2 with isFfmpegReady := true }
      ((s3, (if cfg.log then [.log s!"streaming ({fmt}) started"] else [])
              ++ [.reqframe]))
    else if d.format = "png" then
      -- lines 184-226 (the final `reqframe` of this branch is commented out
      -- in the source)
      let inputArgs := inputArgsOf d.fps newWidth newHeight
      let inputArgs := if cfg.debug then inputArgs ++ ["-report"] else inputArgs
      let subDir := pathJoin cfg.outDir d.filename
      let s3 := ensureDir subDir { s2 with subDir := subDir }
      let padLength := cfg.padLength
      let args := ["-y"] ++ inputArgs
                    ++ [pathJoin subDir (s!"%0{padLength}d." ++ d.format)]
      let s4 := { spawnFfmpeg args s3 with isFfmpegReady := true }
      (s4, if cfg.log then [.log s!"streaming ({fmt}) started"] else [])
    else
      (s2, [])

/-- Handler for "ssam:ffmpeg-newframe" (index.ts lines 229-261).
`stdin.write(buffer, cb)` runs `cb(error)`; on success the callback sends
"ssam:ffmpeg-reqframe", on error it only logs to the console.  Note that
`framesRecorded++` (line 253) and the progress log run synchronously after
the `write` call, regardless of the callback's outcome. -/
def stepNewframe (cfg : Config) (s : PluginState) (writeOk : Bool) :
    PluginState × List Notification :=
  if s.isFfmpegInstalled = false ∨ s.isFfmpegReady = false then (s, [])
  else
    let framesRecorded := s.framesRecorded + 1
    let s1 := { s with framesRecorded := framesRecorded }
    let logMsg := frameMsg s.format framesRecorded s.totalFrames
    (s1, (if cfg.log then [.log logMsg] else [])
           ++ (if writeOk then [.reqframe] else []))

/-- Lines 274-285: the completion log text (`msg` stays `""` if the session
format is neither "mp4" nor "png"; the asterisks stand for `"*".repeat(padLength)`). -/
def doneMsg (cfg : Config) (s : PluginState) : String :=
  let fmt := s.format
  if fmt = "mp4" then
    pathJoin cfg.outDir (s.filename ++ "." ++ fmt)
      ++ s!" recording ({fmt}) complete"
  else if fmt = "png" then
    pathJoin s.subDir
        (String.mk (List.replicate cfg.padLength (Char.ofNat 42)) ++ "." ++ fmt)
      ++ s!" recording ({fmt}) complete"
  else ""

/-- Handler for "ssam:ffmpeg-done" (index.ts lines 263-293). -/
def stepDone (cfg : Config) (s : PluginState) : PluginState × List Notification :=
  if s.isFfmpegInstalled = false ∨ s.isFfmpegReady = false then (s, [])
  else
    -- line 267: stdin.end(); lines 270-271: reset state
    let s1 := { s with stdinOpen := false, isFfmpegReady := false,
                       framesRecorded := 0 }
    (s1, (if cfg.log then [.log (doneMsg cfg s)] else [])
           ++ (if s.cropped then (if cfg.log then [.warn s.msgCropped] else []) else []))

/-- One inbound event dispatched to its handler. -/
def step (cfg : Config) (s : PluginState) : Event → PluginState × List Notification
  | .start d => stepStart cfg s d
  | .newframe ok => stepNewframe cfg s ok
  | .done => stepDone cfg s

/-- Run a sequence of events, returning the final state. -/
def run (cfg : Config) (s : PluginState) : List Event → PluginState
  | [] => s
  | e :: es => run cfg (step cfg s e).1 es

/-- All notifications emitted while running a sequence of events. -/
def outputs (cfg : Config) (s : PluginState) : List Event → List Notification
  | [] => []
  | e :: es => (step cfg s e).2 ++ outputs cfg (step cfg s e).1 es

/-- The plugin state right after `configureServer` ran the install probe
(index.ts lines 62-103): counters zero, not ready, no subprocess.
`installed` is the probe's outcome; `fs0` is whatever directories already
exist on disk. -/
def initState (installed : Bool) (fs0 : List String) : PluginState :=
  { isFfmpegInstalled := installed, isFfmpegReady := false,
    filename := "", format := "", width := 0, height := 0,
    framesRecorded := 0, totalFrames := 0, cropped := false, msgCropped := "",
    subDir := "", stdinOpen := false, stdinHandle := none,
    spawned := [], fsDirs := fs0 }

/-- A state the event loop can actually be in. -/
def Reachable (cfg : Config) (s : PluginState) : Prop :=
  ∃ installed fs0 es, run cfg (initState installed fs0) es = s

/-- Number of "ssam:ffmpeg-reqframe" notifications in a list. -/
def countReq : List Notification → ℕ
  | [] => 0
  | .reqframe :: rest => countReq rest + 1
  | _ :: rest => countReq rest

/-- Number of "ssam:warn" notifications in a list. -/
def warnCount : List Notification → ℕ
  | [] => 0
  | .warn _ :: rest => warnCount rest + 1
  | _ :: rest => warnCount rest

/-- Number of "ssam:warn" notifications carrying a given message. -/
def warnMsgCount (m : String) : List Notification → ℕ
  | [] => 0
  | .warn m2 :: rest => (if m2 = m then 1 else 0) + warnMsgCount m rest
  | _ :: rest => warnMsgCount m rest

theorem startAssign_fields (s : PluginState) (d : StartData) :
    (startAssign s d).isFfmpegInstalled = s.isFfmpegInstalled ∧
    (startAssign s d).isFfmpegReady = s.isFfmpegReady ∧
    (startAssign s d).filename = d.filename ∧
    (startAssign s d).format = d.format ∧
    (startAssign s d).framesRecorded = 0 ∧
    (startAssign s d).totalFrames = d.totalFrames ∧
    (startAssign s d).spawned = s.spawned ∧
    (startAssign s d).stdinHandle = s.stdinHandle ∧
    (startAssign s d).stdinOpen = s.stdinOpen ∧
    (startAssign s d).fsDirs = s.fsDirs ∧
    (startAssign s d).subDir = s.subDir ∧
    (startAssign s d).width = ⌊d.width⌋ ∧
    (startAssign s d).height = ⌊d.height⌋ ∧
    (startAssign s d).cropped
      = decide (¬⌊d.width⌋ % 2 = 0 ∨ ¬⌊d.height⌋ % 2 = 0) := by
  simp only [startAssign]
  split_ifs with h <;> simp [h] <;> omega

theorem startAssign_msgCropped (s : PluginState) (d : StartData) :
    (startAssign s d).msgCropped =
      if ¬⌊d.width⌋ % 2 = 0 ∨ ¬⌊d.height⌋ % 2 = 0
      then cropMsg (evenCrop ⌊d.width⌋) (evenCrop ⌊d.height⌋)
      else s.msgCropped := by
  simp only [startAssign]
  split_ifs with h <;> rfl

theorem ensureDir_fields (dir : String) (s : PluginState) :
    (ensureDir dir s).isFfmpegInstalled = s.isFfmpegInstalled ∧
    (ensureDir dir s).isFfmpegReady = s.isFfmpegReady ∧
    (ensureDir dir s).filename = s.filename ∧
    (ensureDir dir s).format = s.format ∧
    (ensureDir dir s).framesRecorded = s.framesRecorded ∧
    (ensureDir dir s).totalFrames = s.totalFrames ∧
    (ensureDir dir s).spawned = s.spawned ∧
    (ensureDir dir s).stdinHandle = s.stdinHandle ∧
    (ensureDir dir s).stdinOpen = s.stdinOpen ∧
    (ensureDir dir s).subDir = s.subDir ∧
    (ensureDir dir s).width = s.width ∧
    (ensureDir dir s).height = s.height ∧
    (ensureDir dir s).cropped = s.cropped ∧
    (ensureDir dir s).msgCropped = s.msgCropped := by
  unfold ensureDir
  split <;> simp

theorem ensureDir_fsDirs (dir : String) (s : PluginState) :
    (ensureDir dir s).fsDirs
      = if dir ∈ s.fsDirs then s.fsDirs else dir :: s.fsDirs := by
  unfold ensureDir
  split <;> simp

theorem stepNewframe_idle (cfg : Config) (s : PluginState) (ok : Bool)
    (h : s.isFfmpegReady = false) : stepNewframe cfg s ok = (s, []) := by
  unfold stepNewframe
  rw [if_pos (Or.inr h)]

theorem stepDone_idle (cfg : Config) (s : PluginState)
    (h : s.isFfmpegReady = false) : stepDone cfg s = (s, []) := by
  unfold stepDone
  rw [if_pos (Or.inr h)]

/-- The end-to-end example start payload from the spec (odd width). -/
def startClip : StartData :=
  { filename := "clip", format := "mp4", totalFrames := 3,
    width := 641, height := 480, fps := 30 }

/-- A concrete mid-session state: ffmpeg installed, one mp4 session started. -/
def streamingState : PluginState :=
  run defaultConfig (initState true []) [.start startClip]

/-- C1: for every start event with positive integer width and height handled
with ffmpeg installed, the effective (even-cropped) dimensions never exceed
the requested ones, each is lowered by at most one (round down, never up),
both are even, and the `cropped` flag is set iff at least one requested
dimension was odd. -/
theorem crop_dims_sound (cfg : Config) (s : PluginState) (d : StartData)
    (w h : ℤ) (hw : 0 < w) (hh : 0 < h)
    (hdw : d.width = (w : ℚ)) (hdh : d.height = (h : ℚ))
    (hinst : s.isFfmpegInstalled = true) :
    evenCrop w ≤ w ∧ evenCrop h ≤ h ∧
    w - 1 ≤ evenCrop w ∧ h - 1 ≤ evenCrop h ∧
    evenCrop w % 2 = 0 ∧ evenCrop h % 2 = 0 ∧
    ((stepStart cfg s d).1.cropped = true ↔ (¬w % 2 = 0 ∨ ¬h % 2 = 0)) := by
  have hfw : (⌊d.width⌋ : ℤ) = w := by rw [hdw]; exact Int.floor_intCast w
  have hfh : (⌊d.height⌋ : ℤ) = h := by rw [hdh]; exact Int.floor_intCast h
  refine ⟨?_, ?_, ?_, ?_, ?_, ?_, ?_⟩
  · unfold evenCrop; split_ifs <;> omega
  · unfold evenCrop; split_ifs <;> omega
  · unfold evenCrop; split_ifs <;> omega
  · unfold evenCrop; split_ifs <;> omega
  · unfold evenCrop; split_ifs <;> omega
  · unfold evenCrop; split_ifs <;> omega
  · have hc : (stepStart cfg s d).1.cropped
        = decide (¬⌊d.width⌋ % 2 = 0 ∨ ¬⌊d.height⌋ % 2 = 0) := by
      unfold stepStart
      rw [if_neg (by simp [hinst])]
      by_cases h4 : d.format = "mp4"
      · simp [h4, spawnFfmpeg, ensureDir_fields, startAssign_fields]
      · by_cases hp : d.format = "png"
        · simp [h4, hp, spawnFfmpeg, ensureDir_fields, startAssign_fields]
        · simp [h4, hp, ensureDir_fields, startAssign_fields]
    rw [hc, hfw, hfh]
    simp

/-- C1 witness at the spec's example dimensions 641 x 480. -/
theorem crop_dims_sound_witness :
    (0 : ℤ) < 641 ∧ (0 : ℤ) < 480 ∧
    startClip.width = ((641 : ℤ) : ℚ) ∧ startClip.height = ((480 : ℤ) : ℚ) ∧
    (initState true []).isFfmpegInstalled = true ∧
    (evenCrop 641 ≤ 641 ∧ evenCrop 480 ≤ 480 ∧
     (641 : ℤ) - 1 ≤ evenCrop 641 ∧ (480 : ℤ) - 1 ≤ evenCrop 480 ∧
     evenCrop 641 % 2 = 0 ∧ evenCrop 480 % 2 = 0 ∧
     ((stepStart defaultConfig (initState true []) startClip).1.cropped = true ↔
       (¬(641 : ℤ) % 2 = 0 ∨ ¬(480 : ℤ) % 2 = 0))) :=
  ⟨by decide, by decide, by decide, by decide, rfl,
   crop_dims_sound defaultConfig (initState true []) startClip 641 480
     (by decide) (by decide) (by decide) (by decide) rfl⟩

/-- C2: while a session is active (ffmpeg installed and ready), a frame event
emits exactly one request-next-frame notification when the pipe write
succeeds and none when it fails. -/
theorem reqframe_iff_write_ok (cfg : Config) (s : PluginState) (ok : Bool)
    (hinst : s.isFfmpegInstalled = true) (hready : s.isFfmpegReady = true) :
    countReq (stepNewframe cfg s ok).2 = if ok then 1 else 0 := by
  simp only [stepNewframe, hinst, hready]
  cases cfg.log <;> cases ok <;> simp [countReq]

/-- C2 witness: at a concrete streaming state, a successful write emits
exactly one request-next-frame. -/
theorem reqframe_iff_write_ok_witness :
    streamingState.isFfmpegInstalled = true ∧
    streamingState.isFfmpegReady = true ∧
    countReq (stepNewframe defaultConfig streamingState true).2
      = if true then 1 else 0 :=
  ⟨by decide, by decide,
   reqframe_iff_write_ok defaultConfig streamingState true (by decide) (by decide)⟩

/-- C7: while the phase is Idle (`isFfmpegReady = false`), frame and finish
events leave the state untouched and emit nothing. -/
theorem idle_frame_finish_noop (cfg : Config) (s : PluginState) (ok : Bool)
    (hidle : s.isFfmpegReady = false) :
    stepNewframe cfg s ok = (s, []) ∧ stepDone cfg s = (s, []) :=
  ⟨stepNewframe_idle cfg s ok hidle, stepDone_idle cfg s hidle⟩

/-- C7 witness: at the initial state, a frame and a finish event are no-ops. -/
theorem idle_frame_finish_noop_witness :
    (initState true []).isFfmpegReady = false ∧
    stepNewframe defaultConfig (initState true []) true = (initState true [], []) ∧
    stepDone defaultConfig (initState true []) = (initState true [], []) :=
  ⟨rfl,
   (idle_frame_finish_noop defaultConfig (initState true []) true rfl).1,
   (idle_frame_finish_noop defaultConfig (initState true []) true rfl).2⟩

/-- C3 counterexample: at a concrete streaming state with zero frames
recorded, a frame event whose pipe write fails still increments
`framesRecorded`: line 253 (`framesRecorded++`) runs unconditionally after
the `stdin.write` call, outside the write callback, so a failed write is
counted as a recorded frame. -/
theorem framesRecorded_incremented_on_failed_write :
    streamingState.framesRecorded = 0 ∧
    (stepNewframe defaultConfig streamingState false).1.framesRecorded = 1 :=
  ⟨by decide, by decide⟩

/-- C3 amended: `framesRecorded` is reset to 0 by every start event handled
with ffmpeg installed, is incremented by exactly 1 per frame event processed
while a session is active regardless of whether the pipe write succeeds or
fails, and no frame event ever decreases it. -/
theorem framesRecorded_dynamics (cfg : Config) (s : PluginState)
    (d : StartData) (ok : Bool) (hinst : s.isFfmpegInstalled = true) :
    (stepStart cfg s d).1.framesRecorded = 0 ∧
    (s.isFfmpegReady = true →
      (stepNewframe cfg s ok).1.framesRecorded = s.framesRecorded + 1) ∧
    s.framesRecorded ≤ (stepNewframe cfg s ok).1.framesRecorded := by
  refine ⟨?_, ?_, ?_⟩
  · unfold stepStart
    rw [if_neg (by simp [hinst])]
    by_cases h4 : d.format = "mp4"
    · simp [h4, spawnFfmpeg, ensureDir_fields, startAssign_fields]
    · by_cases hp : d.format = "png"
      · simp [h4, hp, spawnFfmpeg, ensureDir_fields, startAssign_fields]
      · simp [h4, hp, ensureDir_fields, startAssign_fields]
  · intro hready
    simp [stepNewframe, hinst, hready]
  · unfold stepNewframe
    split <;> simp

/-- C3 witness for the amended claim, at the concrete streaming state and a
failing write. -/
theorem framesRecorded_dynamics_witness :
    streamingState.isFfmpegInstalled = true ∧
    ((stepStart defaultConfig streamingState startClip).1.framesRecorded = 0 ∧
     (streamingState.isFfmpegReady = true →
       (stepNewframe defaultConfig streamingState false).1.framesRecorded
         = streamingState.framesRecorded + 1) ∧
     streamingState.framesRecorded
       ≤ (stepNewframe defaultConfig streamingState false).1.framesRecorded) :=
  ⟨by decide,
   framesRecorded_dynamics defaultConfig streamingState startClip false (by decide)⟩

/-- A second start payload arriving while `streamingState` is in flight. -/
def startClip2 : StartData :=
  { filename := "clip2", format := "mp4", totalFrames := 3,
    width := 640, height := 480, fps := 30 }

/-- C4: a second start event arriving while a session is already streaming is
not a silent no-op: the handler has no `isFfmpegReady` guard, so it spawns a
second ffmpeg subprocess and replaces the stdin handle of the in-flight
encoder (the first subprocess is never finished or killed). -/
theorem start_while_streaming_spawns_second_encoder :
    streamingState.isFfmpegReady = true ∧
    streamingState.spawned.length = 1 ∧
    streamingState.stdinHandle = some 0 ∧
    (stepStart defaultConfig streamingState startClip2).1.spawned.length = 2 ∧
    (stepStart defaultConfig streamingState startClip2).1.stdinHandle = some 1 :=
  ⟨by decide, by decide, by decide, by decide, by decide⟩

/-- A start payload with non-positive width, height and frame rate. -/
def badStart : StartData :=
  { filename := "clip", format := "mp4", totalFrames := 0,
    width := 0, height := -3, fps := 0 }

/-- C5 counterexample: a start event with non-positive width, height and
frame rate is not rejected: from the idle initial state it still spawns an
ffmpeg subprocess and enters the streaming phase. -/
theorem nonpositive_start_not_rejected :
    (stepStart defaultConfig (initState true []) badStart).1.isFfmpegReady = true ∧
    (stepStart defaultConfig (initState true []) badStart).1.spawned.length = 1 :=
  ⟨by decide, by decide⟩

/-- C5 amended: the handler performs no validation of width, height or frame
rate; a start event with format "mp4" handled with ffmpeg installed always
spawns an encoder and enters the streaming phase, whatever the dimensions
and rate (including non-positive ones). -/
theorem start_spawns_without_validation (cfg : Config) (s : PluginState)
    (d : StartData) (hinst : s.isFfmpegInstalled = true)
    (hfmt : d.format = "mp4") :
    (stepStart cfg s d).1.isFfmpegReady = true ∧
    (stepStart cfg s d).1.spawned.length = s.spawned.length + 1 := by
  unfold stepStart
  rw [if_neg (by simp [hinst])]
  simp [hfmt, spawnFfmpeg, ensureDir_fields, startAssign_fields]

/-- C5 witness for the amended claim, at the non-positive payload. -/
theorem start_spawns_without_validation_witness :
    (initState true []).isFfmpegInstalled = true ∧
    badStart.format = "mp4" ∧
    ((stepStart defaultConfig (initState true []) badStart).1.isFfmpegReady = true ∧
     (stepStart defaultConfig (initState true []) badStart).1.spawned.length
       = (initState true []).spawned.length + 1) :=
  ⟨rfl, rfl,
   start_spawns_without_validation defaultConfig (initState true []) badStart rfl rfl⟩

/-- A start payload with an unrecognized format. -/
def unknownFormatStart : StartData :=
  { filename := "clip3", format := "webm", totalFrames := 0,
    width := 500, height := 500, fps := 30 }

/-- A concrete streaming state with two frames already recorded. -/
def streamingState2 : PluginState :=
  run defaultConfig (initState true [])
    [.start startClip, .newframe true, .newframe true]

/-- C6 counterexample: a start event with an unrecognized format spawns no
encoder, but it does mutate session state: from a streaming state with two
frames recorded it resets `framesRecorded` and overwrites the session
fields, and from the initial state (no output directory yet) it creates the
output directory — all of this happens before the format check. -/
theorem unknown_format_start_mutates_state :
    (streamingState2.framesRecorded = 2 ∧
     (stepStart defaultConfig streamingState2 unknownFormatStart).1.framesRecorded = 0 ∧
     (stepStart defaultConfig streamingState2 unknownFormatStart).1.filename = "clip3" ∧
     (stepStart defaultConfig streamingState2 unknownFormatStart).1.spawned.length
       = streamingState2.spawned.length) ∧
    ((initState true []).fsDirs = [] ∧
     (stepStart defaultConfig (initState true []) unknownFormatStart).1.fsDirs
       = ["./output"]) :=
  ⟨⟨by decide, by decide, by decide, by decide⟩, ⟨rfl, by decide⟩⟩

/-- C6 amended: for a start event whose format is neither "mp4" nor "png"
(handled with ffmpeg installed), no encoder is spawned, the stdin handle and
the ready flag are untouched and nothing is emitted; but the session fields
are overwritten, `framesRecorded` is reset to 0 and the output directory is
created if absent, because those mutations precede the format check. -/
theorem unknown_format_start_behavior (cfg : Config) (s : PluginState)
    (d : StartData) (hinst : s.isFfmpegInstalled = true)
    (h4 : ¬d.format = "mp4") (hp : ¬d.format = "png") :
    (stepStart cfg s d).1.spawned = s.spawned ∧
    (stepStart cfg s d).1.stdinHandle = s.stdinHandle ∧
    (stepStart cfg s d).1.isFfmpegReady = s.isFfmpegReady ∧
    (stepStart cfg s d).2 = [] ∧
    (stepStart cfg s d).1.framesRecorded = 0 ∧
    (stepStart cfg s d).1.filename = d.filename ∧
    (stepStart cfg s d).1.format = d.format ∧
    (stepStart cfg s d).1.fsDirs
      = (if cfg.outDir ∈ s.fsDirs then s.fsDirs else cfg.outDir :: s.fsDirs) := by
  unfold stepStart
  rw [if_neg (by simp [hinst])]
  simp [h4, hp, ensureDir_fields, startAssign_fields, ensureDir_fsDirs]

/-- C6 witness for the amended claim, at the unrecognized-format payload. -/
theorem unknown_format_start_behavior_witness :
    (initState true []).isFfmpegInstalled = true ∧
    ¬unknownFormatStart.format = "mp4" ∧
    ¬unknownFormatStart.format = "png" ∧
    ((stepStart defaultConfig (initState true []) unknownFormatStart).1.spawned
        = (initState true []).spawned ∧
     (stepStart defaultConfig (initState true []) unknownFormatStart).1.stdinHandle
        = (initState true []).stdinHandle ∧
     (stepStart defaultConfig (initState true []) unknownFormatStart).1.isFfmpegReady
        = (initState true []).isFfmpegReady ∧
     (stepStart defaultConfig (initState true []) unknownFormatStart).2 = [] ∧
     (stepStart defaultConfig (initState true []) unknownFormatStart).1.framesRecorded = 0 ∧
     (stepStart defaultConfig (initState true []) unknownFormatStart).1.filename
        = unknownFormatStart.filename ∧
     (stepStart defaultConfig (initState true []) unknownFormatStart).1.format
        = unknownFormatStart.format ∧
     (stepStart defaultConfig (initState true []) unknownFormatStart).1.fsDirs
        = (if defaultConfig.outDir ∈ (initState true []).fsDirs
           then (initState true []).fsDirs
           else defaultConfig.outDir :: (initState true []).fsDirs)) :=
  ⟨rfl, by decide, by decide,
   unknown_format_start_behavior defaultConfig (initState true []) unknownFormatStart
     rfl (by decide) (by decide)⟩

/-- Invariant maintained by the event loop: the plugin is only ever ready
while ffmpeg is installed, and in the idle phase the frame counter is 0. -/
def StateInv (s : PluginState) : Prop :=
  (s.isFfmpegReady = true → s.isFfmpegInstalled = true) ∧
  (s.isFfmpegReady = false → s.framesRecorded = 0)

theorem stateInv_initState (installed : Bool) (fs0 : List String) :
    StateInv (initState installed fs0) := by
  refine ⟨?_, ?_⟩ <;> intro h <;> simp_all [initState]

theorem stateInv_step (cfg : Config) (s : PluginState) (e : Event)
    (hs : StateInv s) : StateInv (step cfg s e).1 := by
  obtain ⟨h1, h2⟩ := hs
  cases e with
  | start d =>
    show StateInv (stepStart cfg s d).1
    by_cases hinst : s.isFfmpegInstalled = true
    · unfold stepStart
      rw [if_neg (by simp [hinst])]
      by_cases h4 : d.format = "mp4"
      · refine ⟨?_, ?_⟩ <;> intro h <;>
          simp_all [h4, spawnFfmpeg, ensureDir_fields, startAssign_fields]
      · by_cases hp : d.format = "png"
        · refine ⟨?_, ?_⟩ <;> intro h <;>
            simp_all [h4, hp, spawnFfmpeg, ensureDir_fields, startAssign_fields]
        · refine ⟨?_, ?_⟩ <;> intro h <;>
            simp_all [h4, hp, ensureDir_fields, startAssign_fields]

    · unfold stepStart
      rw [if_pos (by simpa using hinst)]
      exact ⟨h1, h2⟩
  | newframe ok =>
    show StateInv (stepNewframe cfg s ok).1
    unfold stepNewframe
    split
    · exact ⟨h1, h2⟩
    · next hc =>
      refine ⟨?_, ?_⟩ <;> intro h <;> simp_all
  | done =>
    show StateInv (stepDone cfg s).1
    unfold stepDone
    split
    · exact ⟨h1, h2⟩
    · refine ⟨?_, ?_⟩ <;> intro h <;> simp_all

theorem stateInv_run (cfg : Config) (es : List Event) (s : PluginState)
    (hs : StateInv s) : StateInv (run cfg s es) := by
  induction es generalizing s with
  | nil => exact hs
  | cons e es ih => exact ih (step cfg s e).1 (stateInv_step cfg s e hs)

theorem reachable_stateInv (cfg : Config) (s : PluginState)
    (h : Reachable cfg s) : StateInv s := by
  obtain ⟨installed, fs0, es, rfl⟩ := h
  exact stateInv_run cfg es _ (stateInv_initState installed fs0)

/-- C8: the finish handler is idempotent with respect to state: from any
reachable plugin state, one finish event leaves `framesRecorded = 0` and the
phase idle (`isFfmpegReady = false`), and a second finish event right after
is a no-op — it changes nothing and emits nothing. -/
theorem finish_idempotent (cfg : Config) (s : PluginState)
    (h : Reachable cfg s) :
    (stepDone cfg s).1.framesRecorded = 0 ∧
    (stepDone cfg s).1.isFfmpegReady = false ∧
    stepDone cfg (stepDone cfg s).1 = ((stepDone cfg s).1, []) := by
  obtain ⟨h1, h2⟩ := reachable_stateInv cfg s h
  have hfr : (stepDone cfg s).1.framesRecorded = 0 := by
    unfold stepDone
    split
    · next hc =>
      rcases hc with hc | hc
      · rcases Bool.eq_false_or_eq_true s.isFfmpegReady with hr | hr
        · exact absurd (h1 hr) (by simp [hc])
        · exact h2 hr
      · exact h2 hc
    · simp
  have hready : (stepDone cfg s).1.isFfmpegReady = false := by
    unfold stepDone
    split
    · next hc =>
      rcases hc with hc | hc
      · rcases Bool.eq_false_or_eq_true s.isFfmpegReady with hr | hr
        · exact absurd (h1 hr) (by simp [hc])
        · exact hr
      · exact hc
    · simp
  exact ⟨hfr, hready, stepDone_idle cfg _ hready⟩

/-- C8 witness at a concrete reachable streaming state (one start then two
recorded frames). -/
theorem finish_idempotent_witness :
    Reachable defaultConfig streamingState2 ∧
    ((stepDone defaultConfig streamingState2).1.framesRecorded = 0 ∧
     (stepDone defaultConfig streamingState2).1.isFfmpegReady = false ∧
     stepDone defaultConfig (stepDone defaultConfig streamingState2).1
       = ((stepDone defaultConfig streamingState2).1, [])) :=
  ⟨⟨true, [], [.start startClip, .newframe true, .newframe true], rfl⟩,
   finish_idempotent defaultConfig streamingState2
     ⟨true, [], [.start startClip, .newframe true, .newframe true], rfl⟩⟩

theorem warnCount_append (a b : List Notification) :
    warnCount (a ++ b) = warnCount a + warnCount b := by
  induction a with
  | nil => simp [warnCount]
  | cons n a ih => cases n <;> simp [warnCount, ih] <;> omega

theorem stepNewframe_preserves (cfg : Config) (s : PluginState) (ok : Bool) :
    (stepNewframe cfg s ok).1.isFfmpegInstalled = s.isFfmpegInstalled ∧
    (stepNewframe cfg s ok).1.isFfmpegReady = s.isFfmpegReady ∧
    (stepNewframe cfg s ok).1.cropped = s.cropped ∧
    (stepNewframe cfg s ok).1.msgCropped = s.msgCropped ∧
    (stepNewframe cfg s ok).1.format = s.format ∧
    (stepNewframe cfg s ok).1.filename = s.filename ∧
    (stepNewframe cfg s ok).1.subDir = s.subDir := by
  unfold stepNewframe
  split <;> simp

theorem stepNewframe_no_warn (cfg : Config) (s : PluginState) (ok : Bool) :
    warnCount (stepNewframe cfg s ok).2 = 0 := by
  unfold stepNewframe
  split
  · simp [warnCount]
  · cases cfg.log <;> cases ok <;> simp [warnCount]

theorem stepStart_no_warn (cfg : Config) (s : PluginState) (d : StartData)
    (hinst : s.isFfmpegInstalled = true) :
    warnCount (stepStart cfg s d).2 = 0 := by
  unfold stepStart
  rw [if_neg (by simp [hinst])]
  by_cases h4 : d.format = "mp4"
  · cases hl : cfg.log <;> simp [h4, hl, warnCount]
  · by_cases hp : d.format = "png"
    · cases hl : cfg.log <;> simp [h4, hp, hl, warnCount]
    · simp [h4, hp, warnCount]

theorem stepStart_mp4_fields (cfg : Config) (s : PluginState) (d : StartData)
    (hinst : s.isFfmpegInstalled = true) (hfmt : d.format = "mp4") :
    (stepStart cfg s d).1.isFfmpegReady = true ∧
    (stepStart cfg s d).1.isFfmpegInstalled = true ∧
    (stepStart cfg s d).1.cropped
      = decide (¬⌊d.width⌋ % 2 = 0 ∨ ¬⌊d.height⌋ % 2 = 0) ∧
    (stepStart cfg s d).1.msgCropped
      = (if ¬⌊d.width⌋ % 2 = 0 ∨ ¬⌊d.height⌋ % 2 = 0
         then cropMsg (evenCrop ⌊d.width⌋) (evenCrop ⌊d.height⌋)
         else s.msgCropped) := by
  unfold stepStart
  rw [if_neg (by simp [hinst])]
  simp [hfmt, spawnFfmpeg, ensureDir_fields, startAssign_fields,
        startAssign_msgCropped, hinst]

theorem run_newframes_fields (cfg : Config) (oks : List Bool) (s : PluginState) :
    (run cfg s (oks.map .newframe)).isFfmpegInstalled = s.isFfmpegInstalled ∧
    (run cfg s (oks.map .newframe)).isFfmpegReady = s.isFfmpegReady ∧
    (run cfg s (oks.map .newframe)).cropped = s.cropped ∧
    (run cfg s (oks.map .newframe)).msgCropped = s.msgCropped := by
  induction oks generalizing s with
  | nil => simp [run]
  | cons ok oks ih =>
    have hp := stepNewframe_preserves cfg s ok
    have hi := ih (stepNewframe cfg s ok).1
    simp only [List.map_cons, run, step]
    exact ⟨hi.1.trans hp.1, hi.2.1.trans hp.2.1, hi.2.2.1.trans hp.2.2.1,
           hi.2.2.2.trans hp.2.2.2.1⟩

theorem outputs_newframes_no_warn (cfg : Config) (oks : List Bool)
    (s : PluginState) :
    warnCount (outputs cfg s (oks.map .newframe)) = 0 := by
  induction oks generalizing s with
  | nil => simp [outputs, warnCount]
  | cons ok oks ih =>
    simp only [List.map_cons, outputs, step]
    rw [warnCount_append, stepNewframe_no_warn, ih]

/-- C9: in an mp4 session with logging on and ffmpeg installed, no warning
notification at all is emitted by the start event or by any of the following
frame events; at the finish event, if a requested dimension was odd exactly
one warning is emitted and it is the crop message for the even-cropped
dimensions, while a session whose requested dimensions were both even emits
no warning at finish. -/
theorem crop_warning_deferred_to_finish (cfg : Config) (s : PluginState)
    (d : StartData) (oks : List Bool) (w h : ℤ)
    (hlog : cfg.log = true) (hinst : s.isFfmpegInstalled = true)
    (hfmt : d.format = "mp4")
    (hdw : d.width = (w : ℚ)) (hdh : d.height = (h : ℚ)) :
    warnCount (outputs cfg s (Event.start d :: oks.map Event.newframe)) = 0 ∧
    warnCount
        (stepDone cfg (run cfg s (Event.start d :: oks.map Event.newframe))).2
      = (if w % 2 = 0 ∧ h % 2 = 0 then 0 else 1) ∧
    (¬(w % 2 = 0 ∧ h % 2 = 0) →
      warnMsgCount (cropMsg (evenCrop w) (evenCrop h))
        (stepDone cfg (run cfg s (Event.start d :: oks.map Event.newframe))).2
        = 1) := by
  have hfw : (⌊d.width⌋ : ℤ) = w := by rw [hdw]; exact Int.floor_intCast w
  have hfh : (⌊d.height⌋ : ℤ) = h := by rw [hdh]; exact Int.floor_intCast h
  have h1 := stepStart_mp4_fields cfg s d hinst hfmt
  have h2 := run_newframes_fields cfg oks (stepStart cfg s d).1
  have hrun : run cfg s (Event.start d :: oks.map Event.newframe)
      = run cfg (stepStart cfg s d).1 (oks.map Event.newframe) := by
    simp only [run, step]
  have hinstE :
      (run cfg s (Event.start d :: oks.map Event.newframe)).isFfmpegInstalled
        = true := by rw [hrun]; exact h2.1.trans h1.2.1
  have hreadyE :
      (run cfg s (Event.start d :: oks.map Event.newframe)).isFfmpegReady
        = true := by rw [hrun]; exact h2.2.1.trans h1.1
  have hcropE :
      (run cfg s (Event.start d :: oks.map Event.newframe)).cropped
        = decide (¬w % 2 = 0 ∨ ¬h % 2 = 0) := by
    rw [hrun, h2.2.2.1, h1.2.2.1, hfw, hfh]
  have hmsgE :
      (run cfg s (Event.start d :: oks.map Event.newframe)).msgCropped
        = (if ¬w % 2 = 0 ∨ ¬h % 2 = 0
           then cropMsg (evenCrop w) (evenCrop h) else s.msgCropped) := by
    rw [hrun, h2.2.2.2, h1.2.2.2, hfw, hfh]
  have hdone :
      (stepDone cfg (run cfg s (Event.start d :: oks.map Event.newframe))).2
        = Notification.log
            (doneMsg cfg (run cfg s (Event.start d :: oks.map Event.newframe)))
            :: (if (run cfg s (Event.start d :: oks.map Event.newframe)).cropped
                then [Notification.warn
                  (run cfg s (Event.start d :: oks.map Event.newframe)).msgCropped]
                else []) := by
    unfold stepDone
    rw [if_neg (by simp [hinstE, hreadyE])]
    simp [hlog]
  refine ⟨?_, ?_, ?_⟩
  · simp only [outputs, step]
    rw [warnCount_append, stepStart_no_warn cfg s d hinst,
        outputs_newframes_no_warn]
  · rw [hdone, hcropE, hmsgE]
    by_cases heven : w % 2 = 0 ∧ h % 2 = 0
    · rw [if_pos heven]
      simp [heven.1, heven.2, warnCount]
    · rw [if_neg heven]
      have hodd : w % 2 = 1 ∨ h % 2 = 1 := by omega
      simp [hodd, warnCount]
  · intro heven
    have hodd : w % 2 = 1 ∨ h % 2 = 1 := by omega
    rw [hdone, hcropE, hmsgE]
    simp [hodd, warnMsgCount]

/-- C9 witness: the spec's end-to-end example (641 x 480, odd width), two
frames, then finish. -/
theorem crop_warning_deferred_to_finish_witness :
    defaultConfig.log = true ∧
    (initState true []).isFfmpegInstalled = true ∧
    startClip.format = "mp4" ∧
    startClip.width = ((641 : ℤ) : ℚ) ∧
    startClip.height = ((480 : ℤ) : ℚ) ∧
    (warnCount (outputs defaultConfig (initState true [])
        (Event.start startClip :: [true, false].map Event.newframe)) = 0 ∧
     warnCount (stepDone defaultConfig (run defaultConfig (initState true [])
        (Event.start startClip :: [true, false].map Event.newframe))).2
       = (if (641 : ℤ) % 2 = 0 ∧ (480 : ℤ) % 2 = 0 then 0 else 1) ∧
     (¬((641 : ℤ) % 2 = 0 ∧ (480 : ℤ) % 2 = 0) →
       warnMsgCount (cropMsg (evenCrop 641) (evenCrop 480))
         (stepDone defaultConfig (run defaultConfig (initState true [])
           (Event.start startClip :: [true, false].map Event.newframe))).2
         = 1)) :=
  ⟨rfl, rfl, rfl, by decide, by decide,
   crop_warning_deferred_to_finish defaultConfig (initState true []) startClip
     [true, false] 641 480 rfl rfl rfl (by decide) (by decide)⟩

/-- The image-sequence start payload. -/
def pngStart : StartData :=
  { filename := "seq", format := "png", totalFrames := 0,
    width := 640, height := 480, fps := 30 }

/-- C10: with ffmpeg installed, a start event in mp4 mode emits exactly one
request-next-frame notification, a start event in png (image-sequence) mode
emits none, and a frame event whose write fails emits none — so the first
request-next-frame of an image-sequence session can only follow a completed
frame write. -/
theorem reqframe_at_start_only_mp4 (cfg : Config) (s s2 : PluginState)
    (d dp : StartData) (hinst : s.isFfmpegInstalled = true)
    (hfmt : d.format = "mp4") (hfmtp : dp.format = "png") :
    countReq (stepStart cfg s d).2 = 1 ∧
    countReq (stepStart cfg s dp).2 = 0 ∧
    countReq (stepNewframe cfg s2 false).2 = 0 := by
  refine ⟨?_, ?_, ?_⟩
  · unfold stepStart
    rw [if_neg (by simp [hinst])]
    cases hl : cfg.log <;> simp [hfmt, hl, countReq]
  · unfold stepStart
    rw [if_neg (by simp [hinst])]
    cases hl : cfg.log <;> simp [hfmtp, hl, countReq]
  · unfold stepNewframe
    split
    · simp [countReq]
    · cases hl : cfg.log <;> simp [hl, countReq]

/-- C10 witness at the concrete mp4 and png payloads from the idle initial
state. -/
theorem reqframe_at_start_only_mp4_witness :
    (initState true []).isFfmpegInstalled = true ∧
    startClip.format = "mp4" ∧
    pngStart.format = "png" ∧
    (countReq (stepStart defaultConfig (initState true []) startClip).2 = 1 ∧
     countReq (stepStart defaultConfig (initState true []) pngStart).2 = 0 ∧
     countReq (stepNewframe defaultConfig (initState true []) false).2 = 0) :=
  ⟨rfl, rfl, rfl,
   reqframe_at_start_only_mp4 defaultConfig (initState true [])
     (initState true []) startClip pngStart rfl rfl rfl⟩

end SsamFfmpeg
